import Mathlib

/-!
Verification of the `great_expectations` repository slice:
the CapitalOne `ProfileReportBasedColumnsDataAssistant` (rule construction)
and `SparkDFDatasource.guess_reader_method_from_path`.

Python source is shallowly embedded: pure construction code becomes Lean
definitions; components of the library that are referenced but whose code
is not part of the analyzed sources are modelled from the specification
(each such definition is marked `Modelled from the spec:`).
-/

namespace GE

/-- Modelled from the spec: the FQPN separator token.  FQPNs are dotted
paths `<scope-prefix>.<dotted-path>`; the constant lives in the library
module `rule_based_profiler.parameter_container`, outside the analyzed
sources. -/
def FULLY_QUALIFIED_PARAMETER_NAME_SEPARATOR_CHARACTER : String := "."

/-- Modelled from the spec: reserved suffix `value` (the computed payload)
of an FQPN; defined in `parameter_container`, outside the analyzed
sources. -/
def FULLY_QUALIFIED_PARAMETER_NAME_VALUE_KEY : String := "value"

/-- Modelled from the spec: reserved suffix `details` (provenance/config
echo) of an FQPN; defined in `parameter_container`, outside the analyzed
sources. -/
def FULLY_QUALIFIED_PARAMETER_NAME_METADATA_KEY : String := "details"

/-- Modelled from the spec: the `variables` scope marker used to address
values from the Rule's variables map; defined in `parameter_container`,
outside the analyzed sources. -/
def VARIABLES_KEY : String := "$variables."

/-- Modelled from the spec: the `parameter` scope marker used to address
values written by a Parameter Builder; defined in `parameter_container`,
outside the analyzed sources. -/
def PARAMETER_KEY : String := "$parameter."

/-- Modelled from the spec: the domain-kwargs FQPN, the `domain`-scoped
key denoting the current Domain's kwargs; defined in
`parameter_container`, outside the analyzed sources. -/
def DOMAIN_KWARGS_PARAMETER_FULLY_QUALIFIED_NAME : String :=
  "$domain.domain_kwargs"

/-- A literal value appearing in a Rule's variables map (the source rule
uses booleans and strings only). -/
inductive LitValue where
  | boolVal (b : Bool)
  | strVal (s : String)
  deriving DecidableEq, Repr

/-- Modelled from the spec: a Parameter Builder declares a `metric_name`
(backend-defined identifier), `metric_domain_kwargs` (commonly the
domain-kwargs FQPN indirection) and `metric_value_kwargs` (literal or
templated keyword arguments), plus its own name used to form its
parameter-scope FQPN.  The concrete class lives in the library, outside
the analyzed sources. -/
structure ParameterBuilder where
  name : String
  metric_name : String
  metric_domain_kwargs : String
  metric_value_kwargs : List (String × String)
  deriving DecidableEq, Repr

/-- Modelled from the spec: the library helper
`build_metric_single_batch_parameter_builder` constructs a single-batch
metric Parameter Builder from a metric name, domain kwargs and value
kwargs; its builder name is derived from the metric name. -/
def build_metric_single_batch_parameter_builder
    (metric_name : String) (metric_domain_kwargs : String)
    (metric_value_kwargs : List (String × String)) : ParameterBuilder :=
  { name := metric_name
    metric_name := metric_name
    metric_domain_kwargs := metric_domain_kwargs
    metric_value_kwargs := metric_value_kwargs }

/-- Modelled from the spec: a Parameter Builder's fully-qualified
parameter name is its name addressed under the `parameter` scope. -/
def ParameterBuilder.json_serialized_fully_qualified_parameter_name
    (pb : ParameterBuilder) : String :=
  PARAMETER_KEY ++ pb.name

/-- Modelled from the spec: `to_json_dict` serializes the builder's
declared configuration (name plus backend metric spec) as a JSON
dictionary. -/
structure ParameterBuilderJsonDict where
  name : String
  metric_name : String
  metric_domain_kwargs : String
  metric_value_kwargs : List (String × String)
  deriving DecidableEq, Repr

/-- Modelled from the spec: JSON serialization of a Parameter Builder
(the library method `to_json_dict`, outside the analyzed sources). -/
def ParameterBuilder.to_json_dict (pb : ParameterBuilder) :
    ParameterBuilderJsonDict :=
  { name := pb.name
    metric_name := pb.metric_name
    metric_domain_kwargs := pb.metric_domain_kwargs
    metric_value_kwargs := pb.metric_value_kwargs }

/-- Modelled from the spec: a `ParameterBuilderConfig` is a lightweight
re-declaration (name + backend metric spec) of a Parameter Builder, used
in `validation_parameter_builder_configs`. -/
structure ParameterBuilderConfig where
  name : String
  metric_name : String
  metric_domain_kwargs : String
  metric_value_kwargs : List (String × String)
  deriving DecidableEq, Repr

/-- Modelled from the spec: constructing a `ParameterBuilderConfig` by
splatting a JSON dictionary (`ParameterBuilderConfig(**json_dict)` in the
source). -/
def ParameterBuilderConfig.ofJsonDict (j : ParameterBuilderJsonDict) :
    ParameterBuilderConfig :=
  { name := j.name
    metric_name := j.metric_name
    metric_domain_kwargs := j.metric_domain_kwargs
    metric_value_kwargs := j.metric_value_kwargs }

/-- `ColumnDomainBuilder` constructor arguments, mirroring the keyword
arguments passed in `_build_columns_rule` (the filter fields of the
library class). -/
structure ColumnDomainBuilder where
  include_column_names : Option (List String)
  exclude_column_names : Option (List String)
  include_column_name_suffixes : Option (List String)
  exclude_column_name_suffixes : Option (List String)
  semantic_type_filter_module_name : Option String
  semantic_type_filter_class_name : Option String
  include_semantic_types : Option (List String)
  exclude_semantic_types : Option (List String)
  data_context : Option Unit
  deriving DecidableEq, Repr

/-- A Domain Builder; the analyzed rule uses the column variant. -/
inductive DomainBuilder where
  | column (b : ColumnDomainBuilder)
  deriving DecidableEq, Repr

/-- The `DefaultExpectationConfigurationBuilder` instantiation of
`_build_columns_rule`: an expectation type, forward-declared validation
parameter-builder configs, templated fields, and a meta mapping. -/
structure DefaultExpectationConfigurationBuilder where
  expectation_type : String
  validation_parameter_builder_configs : List ParameterBuilderConfig
  column : String
  min_value : String
  max_value : String
  strict_min : String
  strict_max : String
  meta : List (String × String)
  deriving DecidableEq, Repr

/-- A Rule: name, variables mapping (string key to literal value), one
Domain Builder, ordered Parameter Builders, ordered Configuration
Builders — the components passed to the `Rule` constructor in
`_build_columns_rule`. -/
structure Rule where
  name : String
  rule_variables : List (String × LitValue)
  domain_builder : DomainBuilder
  parameter_builders : List ParameterBuilder
  expectation_configuration_builders : List DefaultExpectationConfigurationBuilder
  deriving DecidableEq, Repr

/-- Step 1 of `_build_columns_rule`: the `ColumnDomainBuilder`
instantiation — every filter keyword argument is `None`. -/
def column_domain_builder : ColumnDomainBuilder :=
  { include_column_names := none
    exclude_column_names := none
    include_column_name_suffixes := none
    exclude_column_name_suffixes := none
    semantic_type_filter_module_name := none
    semantic_type_filter_class_name := none
    include_semantic_types := none
    exclude_semantic_types := none
    data_context := none }

/-- Step 2 of `_build_columns_rule`: the single-batch Parameter Builder
for the `data_profiler.column_profile_report` metric (the local
`..._parameter_builder_for_metrics`). -/
def pb_for_metrics : ParameterBuilder :=
  build_metric_single_batch_parameter_builder
    "data_profiler.column_profile_report"
    DOMAIN_KWARGS_PARAMETER_FULLY_QUALIFIED_NAME
    [("profile_path", VARIABLES_KEY ++ "profile_path")]

/-- Step 3 of `_build_columns_rule`: the Parameter Builder used for
validations is the very same object as the one for metrics. -/
def pb_for_validations : ParameterBuilder := pb_for_metrics

/-- Step 4 of `_build_columns_rule`: the forward-declared validation
configs, built by splatting the validations builder's JSON dictionary
into a `ParameterBuilderConfig`. -/
def validation_parameter_builder_configs : List ParameterBuilderConfig :=
  [ParameterBuilderConfig.ofJsonDict pb_for_validations.to_json_dict]

/-- Step 4 of `_build_columns_rule`: the
`expect_column_min_to_be_between` configuration builder with its
templated fields and meta mapping, translated literally from the
source (note that `max_value` uses `.statistics.min`). -/
def expect_column_min_to_be_between_expectation_configuration_builder :
    DefaultExpectationConfigurationBuilder :=
  { expectation_type := "expect_column_min_to_be_between"
    validation_parameter_builder_configs :=
      validation_parameter_builder_configs
    column := DOMAIN_KWARGS_PARAMETER_FULLY_QUALIFIED_NAME ++
      FULLY_QUALIFIED_PARAMETER_NAME_SEPARATOR_CHARACTER ++ "column"
    min_value :=
      pb_for_validations.json_serialized_fully_qualified_parameter_name ++
      FULLY_QUALIFIED_PARAMETER_NAME_SEPARATOR_CHARACTER ++
      FULLY_QUALIFIED_PARAMETER_NAME_VALUE_KEY ++ ".statistics.min"
    max_value :=
      pb_for_validations.json_serialized_fully_qualified_parameter_name ++
      FULLY_QUALIFIED_PARAMETER_NAME_SEPARATOR_CHARACTER ++
      FULLY_QUALIFIED_PARAMETER_NAME_VALUE_KEY ++ ".statistics.min"
    strict_min := VARIABLES_KEY ++ "strict_min"
    strict_max := VARIABLES_KEY ++ "strict_max"
    meta :=
      [("profiler_details",
        pb_for_validations.json_serialized_fully_qualified_parameter_name ++
        FULLY_QUALIFIED_PARAMETER_NAME_SEPARATOR_CHARACTER ++
        FULLY_QUALIFIED_PARAMETER_NAME_METADATA_KEY)] }

/-- `ProfileReportBasedColumnsDataAssistant._build_columns_rule`, step 5:
the `Rule` instantiation assembling the components above. -/
def build_columns_rule : Rule :=
  { name := "columns_rule"
    rule_variables :=
      [("strict_min", LitValue.boolVal false),
       ("strict_max", LitValue.boolVal false),
       ("profile_path", LitValue.strVal "default_profiler_path")]
    domain_builder := DomainBuilder.column column_domain_builder
    parameter_builders := [pb_for_metrics]
    expectation_configuration_builders :=
      [expect_column_min_to_be_between_expectation_configuration_builder] }

/-- `ProfileReportBasedColumnsDataAssistant.get_variables`: returns no
variable overrides. -/
def get_variables : Option (List (String × LitValue)) := none

/-- `ProfileReportBasedColumnsDataAssistant.get_rules`: returns the list
containing the single columns rule. -/
def get_rules : Option (List Rule) := some [build_columns_rule]

/-- The semantic types the spec's column filter pipeline distinguishes. -/
inductive SemanticType where
  | numeric
  | text
  | datetime
  | boolean
  deriving DecidableEq, Repr

/-- One column of the dataset schema as seen by the Domain Builder: a
name with an inferred semantic type. -/
structure SchemaColumn where
  name : String
  semType : SemanticType
  deriving DecidableEq, Repr

/-- Modelled from the spec: the `ColumnDomainBuilder` filter pipeline
(library code outside the analyzed sources).  Filter order: explicit
include list (if present, ignore all other filters except explicit
excludes applied after), then suffix filters, then semantic-type
filters; excludes take precedence over includes. -/
def applyColumnFilters (b : ColumnDomainBuilder)
    (schema : List SchemaColumn) : List SchemaColumn :=
  match b.include_column_names with
  | some incl =>
      let included := schema.filter (fun c => incl.contains c.name)
      match b.exclude_column_names with
      | some excl => included.filter (fun c => !excl.contains c.name)
      | none => included
  | none =>
      let s1 :=
        match b.exclude_column_names with
        | some excl => schema.filter (fun c => !excl.contains c.name)
        | none => schema
      let s2 :=
        match b.include_column_name_suffixes with
        | some sufs =>
            s1.filter (fun c => sufs.any (fun s => c.name.endsWith s))
        | none => s1
      let s3 :=
        match b.exclude_column_name_suffixes with
        | some sufs =>
            s2.filter (fun c => !sufs.any (fun s => c.name.endsWith s))
        | none => s2
      let s4 :=
        match b.include_semantic_types with
        | some types =>
            s3.filter (fun c => types.contains (reprStr c.semType))
        | none => s3
      match b.exclude_semantic_types with
      | some types =>
          s4.filter (fun c => !types.contains (reprStr c.semType))
      | none => s4

/-- `DataAssistantResult`, the accumulated result record passed to
`_build_data_assistant_result`.  The field payloads come from library
types outside the analyzed sources; each is kept as an abstract type
parameter because the conversion never inspects them. -/
structure DataAssistantResult (M C T R E X Q I U : Type) where
  batch_id_to_batch_identifier_display_name_map : M
  profiler_config : C
  profiler_execution_time : T
  rule_domain_builder_execution_time : R
  rule_execution_time : E
  metrics_by_domain : X
  expectation_configurations : Q
  citation : I
  usage_statistics_handler : U

/-- `ProfileReportBasedColumnsDataAssistantResult`: the concrete subclass
of `DataAssistantResult` with the same fields (the subclass adds no
data). -/
structure ProfileReportBasedColumnsDataAssistantResult
    (M C T R E X Q I U : Type) where
  batch_id_to_batch_identifier_display_name_map : M
  profiler_config : C
  profiler_execution_time : T
  rule_domain_builder_execution_time : R
  rule_execution_time : E
  metrics_by_domain : X
  expectation_configurations : Q
  citation : I
  usage_statistics_handler : U

/-- `ProfileReportBasedColumnsDataAssistant._build_data_assistant_result`,
translated from the source: each keyword argument is the corresponding
field of the input result. -/
def build_data_assistant_result {M C T R E X Q I U : Type}
    (data_assistant_result : DataAssistantResult M C T R E X Q I U) :
    ProfileReportBasedColumnsDataAssistantResult M C T R E X Q I U :=
  { batch_id_to_batch_identifier_display_name_map :=
      data_assistant_result.batch_id_to_batch_identifier_display_name_map
    profiler_config := data_assistant_result.profiler_config
    profiler_execution_time := data_assistant_result.profiler_execution_time
    rule_domain_builder_execution_time :=
      data_assistant_result.rule_domain_builder_execution_time
    rule_execution_time := data_assistant_result.rule_execution_time
    metrics_by_domain := data_assistant_result.metrics_by_domain
    expectation_configurations :=
      data_assistant_result.expectation_configurations
    citation := data_assistant_result.citation
    usage_statistics_handler :=
      data_assistant_result.usage_statistics_handler }

/-- Modelled from the spec: a Configuration — a `type` tag, a mapping of
resolved field name to resolved value, and an optional `meta` mapping
(the `ExpectationConfiguration` class lives outside the analyzed
sources). -/
structure ExpectationConfiguration where
  expectation_type : String
  kwargs : List (String × String)
  meta : List (String × String)
  deriving DecidableEq, Repr

/-- Modelled from the spec: Configuration equality — two Configurations
are equal iff their type tag and resolved field mappings are equal,
ignoring `meta`. -/
def ExpectationConfiguration.equals
    (a b : ExpectationConfiguration) : Bool :=
  a.expectation_type == b.expectation_type && a.kwargs == b.kwargs

/-- Modelled from the spec: the Result's accumulation deduplicates
emitted Configurations under Configuration equality, keeping the first
occurrence. -/
def dedupConfigurations (cs : List ExpectationConfiguration) :
    List ExpectationConfiguration :=
  cs.foldl
    (fun acc c =>
      if acc.any (fun d => d.equals c) then acc else acc ++ [c])
    []

end GE

namespace SparkDF

/-- `BatchKwargsError` raised by `guess_reader_method_from_path`: a
message together with the offending path (the `path` batch kwarg). -/
structure BatchKwargsError where
  message : List Char
  path : List Char
  deriving DecidableEq, Repr

/-- The dictionary `SparkDFDatasource.guess_reader_method_from_path`
returns: a single `reader_method` entry. -/
structure ReaderMethodDict where
  reader_method : List Char
  deriving DecidableEq, Repr

/-- The `path = path.lower()` step of `guess_reader_method_from_path`:
paths are embedded as lists of characters and lowercasing maps
`Char.toLower` over them. -/
def lowered (path : List Char) : List Char := path.map Char.toLower

/-- `SparkDFDatasource.guess_reader_method_from_path`, translated from
the source.  Python's `str.endswith` becomes `List.isSuffixOf` on the
lowered path. -/
def guess_reader_method_from_path (path : List Char) :
    Except BatchKwargsError ReaderMethodDict :=
  if ".csv".toList.isSuffixOf (lowered path) ||
      ".tsv".toList.isSuffixOf (lowered path) then
    Except.ok { reader_method := "csv".toList }
  else if ".parquet".toList.isSuffixOf (lowered path) ||
      ".parq".toList.isSuffixOf (lowered path) ||
      ".pqt".toList.isSuffixOf (lowered path) then
    Except.ok { reader_method := "parquet".toList }
  else
    Except.error
      { message := "Unable to determine reader method from path: ".toList ++
          lowered path
        path := lowered path }

end SparkDF

namespace GE

/-- Claim C1: in the Rule built by `_build_columns_rule`, the `min_value`
and the `max_value` field templates of the `expect_column_min_to_be_between`
configuration builder are the identical string — the parameter builder's
fully-qualified parameter name followed by the separator, the value key
and `.statistics.min` — so for every domain any resolution function gives
both fields the same stored value. -/
theorem min_max_value_templates_identical :
    expect_column_min_to_be_between_expectation_configuration_builder.min_value =
      expect_column_min_to_be_between_expectation_configuration_builder.max_value ∧
    expect_column_min_to_be_between_expectation_configuration_builder.min_value =
      pb_for_validations.json_serialized_fully_qualified_parameter_name ++
        FULLY_QUALIFIED_PARAMETER_NAME_SEPARATOR_CHARACTER ++
        FULLY_QUALIFIED_PARAMETER_NAME_VALUE_KEY ++ ".statistics.min" ∧
    ∀ (V : Type) (resolve : String → V),
      resolve
        expect_column_min_to_be_between_expectation_configuration_builder.min_value =
      resolve
        expect_column_min_to_be_between_expectation_configuration_builder.max_value :=
  ⟨rfl, rfl, fun _ _ => rfl⟩

/-- Closed instance of C1: a concrete resolution function (string length)
applied to both templates agrees. -/
theorem min_max_value_templates_identical_inst :
    String.length
      expect_column_min_to_be_between_expectation_configuration_builder.min_value =
    String.length
      expect_column_min_to_be_between_expectation_configuration_builder.max_value :=
  min_max_value_templates_identical.2.2 Nat String.length

/-- Claim C2: every templated field of the
`expect_column_min_to_be_between` configuration builder is addressed by
one of the three FQPN namespaces with the reserved suffixes: `column` by
the domain scope, `min_value`/`max_value` by the parameter scope with the
value key, `strict_min`/`strict_max` by the variables scope, and the meta
`profiler_details` entry by the parameter scope with the metadata/details
key. -/
theorem templated_fields_use_fqpn_namespaces :
    expect_column_min_to_be_between_expectation_configuration_builder.column =
      DOMAIN_KWARGS_PARAMETER_FULLY_QUALIFIED_NAME ++
        FULLY_QUALIFIED_PARAMETER_NAME_SEPARATOR_CHARACTER ++ "column" ∧
    expect_column_min_to_be_between_expectation_configuration_builder.min_value =
      pb_for_validations.json_serialized_fully_qualified_parameter_name ++
        FULLY_QUALIFIED_PARAMETER_NAME_SEPARATOR_CHARACTER ++
        FULLY_QUALIFIED_PARAMETER_NAME_VALUE_KEY ++ ".statistics.min" ∧
    expect_column_min_to_be_between_expectation_configuration_builder.max_value =
      pb_for_validations.json_serialized_fully_qualified_parameter_name ++
        FULLY_QUALIFIED_PARAMETER_NAME_SEPARATOR_CHARACTER ++
        FULLY_QUALIFIED_PARAMETER_NAME_VALUE_KEY ++ ".statistics.min" ∧
    expect_column_min_to_be_between_expectation_configuration_builder.strict_min =
      VARIABLES_KEY ++ "strict_min" ∧
    expect_column_min_to_be_between_expectation_configuration_builder.strict_max =
      VARIABLES_KEY ++ "strict_max" ∧
    expect_column_min_to_be_between_expectation_configuration_builder.meta =
      [("profiler_details",
        pb_for_validations.json_serialized_fully_qualified_parameter_name ++
          FULLY_QUALIFIED_PARAMETER_NAME_SEPARATOR_CHARACTER ++
          FULLY_QUALIFIED_PARAMETER_NAME_METADATA_KEY)] :=
  ⟨rfl, rfl, rfl, rfl, rfl, rfl⟩

/-- Claim C3: `_build_columns_rule` returns a Rule named `columns_rule`
owning exactly one Domain Builder (a `ColumnDomainBuilder`), exactly one
Parameter Builder, exactly one Configuration Builder (the
`expect_column_min_to_be_between` builder), and a variables mapping from
string keys to literal values; `get_rules` returns the list containing
exactly this one Rule. -/
theorem columns_rule_shape :
    build_columns_rule.name = "columns_rule" ∧
    build_columns_rule.domain_builder =
      DomainBuilder.column column_domain_builder ∧
    build_columns_rule.parameter_builders = [pb_for_metrics] ∧
    build_columns_rule.expectation_configuration_builders =
      [expect_column_min_to_be_between_expectation_configuration_builder] ∧
    expect_column_min_to_be_between_expectation_configuration_builder.expectation_type =
      "expect_column_min_to_be_between" ∧
    get_rules = some [build_columns_rule] :=
  ⟨rfl, rfl, rfl, rfl, rfl, rfl⟩

/-- Claim C4: the variables mapping of the columns rule enumerates
exactly `strict_min ↦ False`, `strict_max ↦ False` and
`profile_path ↦ "default_profiler_path"`, and `get_variables` returns
`None`. -/
theorem columns_rule_variables_enumerated :
    build_columns_rule.rule_variables =
      [("strict_min", LitValue.boolVal false),
       ("strict_max", LitValue.boolVal false),
       ("profile_path", LitValue.strVal "default_profiler_path")] ∧
    get_variables = none :=
  ⟨rfl, rfl⟩

/-- Claim C5: the single validation parameter-builder config is built
from `to_json_dict` of the very Parameter Builder appearing in the
Rule's `parameter_builders` list, and the serialize-then-reconstruct
round trip yields a config re-declaring exactly that builder's name and
metric spec. -/
theorem validation_config_round_trip :
    (∀ pb : ParameterBuilder,
      (ParameterBuilderConfig.ofJsonDict pb.to_json_dict).name = pb.name ∧
      (ParameterBuilderConfig.ofJsonDict pb.to_json_dict).metric_name =
        pb.metric_name ∧
      (ParameterBuilderConfig.ofJsonDict pb.to_json_dict).metric_domain_kwargs =
        pb.metric_domain_kwargs ∧
      (ParameterBuilderConfig.ofJsonDict pb.to_json_dict).metric_value_kwargs =
        pb.metric_value_kwargs) ∧
    expect_column_min_to_be_between_expectation_configuration_builder.validation_parameter_builder_configs =
      [ParameterBuilderConfig.ofJsonDict pb_for_validations.to_json_dict] ∧
    pb_for_validations = pb_for_metrics ∧
    build_columns_rule.parameter_builders = [pb_for_validations] :=
  ⟨fun _ => ⟨rfl, rfl, rfl, rfl⟩, rfl, rfl, rfl⟩

/-- Closed instance of C5: the round trip evaluated on the columns
rule's own Parameter Builder. -/
theorem validation_config_round_trip_inst :
    (ParameterBuilderConfig.ofJsonDict pb_for_metrics.to_json_dict).name =
      pb_for_metrics.name ∧
    (ParameterBuilderConfig.ofJsonDict pb_for_metrics.to_json_dict).metric_name =
      pb_for_metrics.metric_name ∧
    (ParameterBuilderConfig.ofJsonDict pb_for_metrics.to_json_dict).metric_domain_kwargs =
      pb_for_metrics.metric_domain_kwargs ∧
    (ParameterBuilderConfig.ofJsonDict pb_for_metrics.to_json_dict).metric_value_kwargs =
      pb_for_metrics.metric_value_kwargs :=
  validation_config_round_trip.1 pb_for_metrics

/-- Claim C6: the columns rule's single Parameter Builder declares
metric name `data_profiler.column_profile_report`, declares its metric
domain kwargs as the domain-kwargs FQPN indirection, and declares a
`profile_path` metric value kwarg templated on the variables scope. -/
theorem parameter_builder_metric_spec :
    pb_for_metrics.metric_name = "data_profiler.column_profile_report" ∧
    pb_for_metrics.metric_domain_kwargs =
      DOMAIN_KWARGS_PARAMETER_FULLY_QUALIFIED_NAME ∧
    pb_for_metrics.metric_value_kwargs =
      [("profile_path", VARIABLES_KEY ++ "profile_path")] ∧
    build_columns_rule.parameter_builders = [pb_for_metrics] :=
  ⟨rfl, rfl, rfl, rfl⟩

/-- Claim C7: the columns rule's `ColumnDomainBuilder` is constructed
with every filter argument set to `None`, so the filter pipeline excludes
no column of the dataset schema: the builder selects all column
domains. -/
theorem column_domain_builder_selects_all :
    column_domain_builder.include_column_names = none ∧
    column_domain_builder.exclude_column_names = none ∧
    column_domain_builder.include_column_name_suffixes = none ∧
    column_domain_builder.exclude_column_name_suffixes = none ∧
    column_domain_builder.semantic_type_filter_module_name = none ∧
    column_domain_builder.semantic_type_filter_class_name = none ∧
    column_domain_builder.include_semantic_types = none ∧
    column_domain_builder.exclude_semantic_types = none ∧
    ∀ schema : List SchemaColumn,
      applyColumnFilters column_domain_builder schema = schema :=
  ⟨rfl, rfl, rfl, rfl, rfl, rfl, rfl, rfl, fun _ => rfl⟩

/-- Closed instance of C7: the all-`None` builder keeps a concrete
two-column schema unchanged. -/
theorem column_domain_builder_selects_all_inst :
    applyColumnFilters column_domain_builder
      [⟨"amount", SemanticType.numeric⟩,
       ⟨"passenger_count", SemanticType.numeric⟩] =
    [⟨"amount", SemanticType.numeric⟩,
     ⟨"passenger_count", SemanticType.numeric⟩] :=
  column_domain_builder_selects_all.2.2.2.2.2.2.2.2
    [⟨"amount", SemanticType.numeric⟩,
     ⟨"passenger_count", SemanticType.numeric⟩]

/-- Claim C8: `_build_data_assistant_result` copies every Result field
unchanged from the input `DataAssistantResult` — the conversion changes
only the result's concrete type and no accumulated field. -/
theorem build_result_preserves_all_fields :
    ∀ (M C T R E X Q I U : Type)
      (r : DataAssistantResult M C T R E X Q I U),
      (build_data_assistant_result r).batch_id_to_batch_identifier_display_name_map =
        r.batch_id_to_batch_identifier_display_name_map ∧
      (build_data_assistant_result r).profiler_config = r.profiler_config ∧
      (build_data_assistant_result r).profiler_execution_time =
        r.profiler_execution_time ∧
      (build_data_assistant_result r).rule_domain_builder_execution_time =
        r.rule_domain_builder_execution_time ∧
      (build_data_assistant_result r).rule_execution_time =
        r.rule_execution_time ∧
      (build_data_assistant_result r).metrics_by_domain = r.metrics_by_domain ∧
      (build_data_assistant_result r).expectation_configurations =
        r.expectation_configurations ∧
      (build_data_assistant_result r).citation = r.citation ∧
      (build_data_assistant_result r).usage_statistics_handler =
        r.usage_statistics_handler :=
  fun _ _ _ _ _ _ _ _ _ _ =>
    ⟨rfl, rfl, rfl, rfl, rfl, rfl, rfl, rfl, rfl⟩

/-- Closed instance of C8: the conversion evaluated on a concrete
result record preserves a field. -/
theorem build_result_preserves_all_fields_inst :
    (build_data_assistant_result
      (⟨1, 2, 3, 4, 5, 6, 7, 8, 9⟩ :
        DataAssistantResult Nat Nat Nat Nat Nat Nat Nat Nat Nat)).citation =
      (⟨1, 2, 3, 4, 5, 6, 7, 8, 9⟩ :
        DataAssistantResult Nat Nat Nat Nat Nat Nat Nat Nat Nat).citation :=
  (build_result_preserves_all_fields Nat Nat Nat Nat Nat Nat Nat Nat Nat
    ⟨1, 2, 3, 4, 5, 6, 7, 8, 9⟩).2.2.2.2.2.2.2.1

/-- Claim C9: two Configurations are equal iff their type tag and their
resolved field mappings are equal, `meta` ignored; consequently two
Configurations with the same type and fields but different `meta`
collapse to one entry under deduplication. -/
theorem configuration_equality_ignores_meta :
    (∀ a b : ExpectationConfiguration,
      a.equals b = true ↔
        (a.expectation_type = b.expectation_type ∧ a.kwargs = b.kwargs)) ∧
    (∀ a b : ExpectationConfiguration,
      a.expectation_type = b.expectation_type → a.kwargs = b.kwargs →
        dedupConfigurations [a, b] = [a]) := by
  constructor
  · intro a b
    simp [ExpectationConfiguration.equals]
  · intro a b h1 h2
    simp [dedupConfigurations, ExpectationConfiguration.equals, h1, h2]

/-- Closed instance of C9: two configurations with the same type tag and
fields but different `meta`, as emitted from two different domains,
collapse to the first. -/
theorem configuration_equality_ignores_meta_inst :
    dedupConfigurations
      [⟨"range_check", [("column", "amount")], [("domain", "a")]⟩,
       ⟨"range_check", [("column", "amount")], [("domain", "b")]⟩] =
    [⟨"range_check", [("column", "amount")], [("domain", "a")]⟩] :=
  configuration_equality_ignores_meta.2
    ⟨"range_check", [("column", "amount")], [("domain", "a")]⟩
    ⟨"range_check", [("column", "amount")], [("domain", "b")]⟩
    rfl rfl

end GE

namespace SparkDF

/-- If a list with last element `c` is a suffix of `p`, then `p` also has
last element `c`. -/
theorem getLast?_eq_of_suffix {l p : List Char} {c : Char}
    (h : l <:+ p) (hc : l.getLast? = some c) : p.getLast? = some c := by
  obtain ⟨t, rfl⟩ := h
  simp [List.getLast?_append, hc]

/-- A path ending in `.csv` or `.tsv` has last character `v`. -/
theorem last_v_of_csv_group {p : List Char}
    (h : ".csv".toList <:+ p ∨ ".tsv".toList <:+ p) :
    p.getLast? = some 'v' := by
  rcases h with h | h
  · exact getLast?_eq_of_suffix h (by decide)
  · exact getLast?_eq_of_suffix h (by decide)

/-- A path cannot end in one of the parquet-family extensions and at the
same time in one of the csv-family extensions: the last characters
differ. -/
theorem not_csv_group_of_parquet_group {p : List Char}
    (h : ".parquet".toList <:+ p ∨ ".parq".toList <:+ p ∨
      ".pqt".toList <:+ p) :
    ¬(".csv".toList <:+ p ∨ ".tsv".toList <:+ p) := by
  intro hc
  have hv := last_v_of_csv_group hc
  rcases h with h | h | h
  · have ht := getLast?_eq_of_suffix h
      (by decide : ".parquet".toList.getLast? = some 't')
    rw [hv] at ht
    exact absurd ht (by decide)
  · have ht := getLast?_eq_of_suffix h
      (by decide : ".parq".toList.getLast? = some 'q')
    rw [hv] at ht
    exact absurd ht (by decide)
  · have ht := getLast?_eq_of_suffix h
      (by decide : ".pqt".toList.getLast? = some 't')
    rw [hv] at ht
    exact absurd ht (by decide)

/-- Claim C10: for every path, `guess_reader_method_from_path` returns
the csv reader dictionary iff the lowercased path ends with `.csv` or
`.tsv`, returns the parquet reader dictionary iff the lowercased path
ends with `.parquet`, `.parq` or `.pqt`, and raises `BatchKwargsError`
for every other path. -/
theorem guess_reader_method_from_path_spec (path : List Char) :
    (guess_reader_method_from_path path =
        Except.ok { reader_method := "csv".toList } ↔
      (".csv".toList <:+ lowered path ∨ ".tsv".toList <:+ lowered path)) ∧
    (guess_reader_method_from_path path =
        Except.ok { reader_method := "parquet".toList } ↔
      (".parquet".toList <:+ lowered path ∨
        ".parq".toList <:+ lowered path ∨
        ".pqt".toList <:+ lowered path)) ∧
    ((∃ e, guess_reader_method_from_path path = Except.error e) ↔
      ¬(".csv".toList <:+ lowered path ∨ ".tsv".toList <:+ lowered path ∨
        ".parquet".toList <:+ lowered path ∨
        ".parq".toList <:+ lowered path ∨
        ".pqt".toList <:+ lowered path)) := by
  by_cases h1 : (".csv".toList.isSuffixOf (lowered path) ||
      ".tsv".toList.isSuffixOf (lowered path)) = true
  · have hp1 : ".csv".toList <:+ lowered path ∨
        ".tsv".toList <:+ lowered path := by simpa using h1
    have hres : guess_reader_method_from_path path =
        Except.ok { reader_method := "csv".toList } := by
      unfold guess_reader_method_from_path
      rw [if_pos h1]
    refine ⟨⟨fun _ => hp1, fun _ => hres⟩, ?_, ?_⟩
    · constructor
      · intro hok
        rw [hres] at hok
        simp at hok
      · intro hparq
        exact absurd hp1 (not_csv_group_of_parquet_group hparq)
    · constructor
      · rintro ⟨e, he⟩
        rw [hres] at he
        exact Except.noConfusion he
      · intro hn
        rcases hp1 with h | h
        · exact absurd (Or.inl h) hn
        · exact absurd (Or.inr (Or.inl h)) hn
  · have hp1 : ¬(".csv".toList <:+ lowered path ∨
        ".tsv".toList <:+ lowered path) :=
      fun hh => h1 (by simpa using hh)
    by_cases h2 : (".parquet".toList.isSuffixOf (lowered path) ||
        ".parq".toList.isSuffixOf (lowered path) ||
        ".pqt".toList.isSuffixOf (lowered path)) = true
    · have hp2 : ".parquet".toList <:+ lowered path ∨
          ".parq".toList <:+ lowered path ∨
          ".pqt".toList <:+ lowered path := by
        simpa [or_assoc] using h2
      have hres : guess_reader_method_from_path path =
          Except.ok { reader_method := "parquet".toList } := by
        unfold guess_reader_method_from_path
        rw [if_neg h1, if_pos h2]
      refine ⟨?_, ⟨fun _ => hp2, fun _ => hres⟩, ?_⟩
      · constructor
        · intro hok
          rw [hres] at hok
          simp at hok
        · intro hcsv
          exact absurd hcsv hp1
      · constructor
        · rintro ⟨e, he⟩
          rw [hres] at he
          exact Except.noConfusion he
        · intro hn
          rcases hp2 with h | h | h
          · exact absurd (Or.inr (Or.inr (Or.inl h))) hn
          · exact absurd (Or.inr (Or.inr (Or.inr (Or.inl h)))) hn
          · exact absurd (Or.inr (Or.inr (Or.inr (Or.inr h)))) hn
    · have hp2 : ¬(".parquet".toList <:+ lowered path ∨
          ".parq".toList <:+ lowered path ∨
          ".pqt".toList <:+ lowered path) :=
        fun hh => h2 (by simpa [or_assoc] using hh)
      have hres : guess_reader_method_from_path path =
          Except.error
            { message :=
                "Unable to determine reader method from path: ".toList ++
                  lowered path
              path := lowered path } := by
        unfold guess_reader_method_from_path
        rw [if_neg h1, if_neg h2]
      refine ⟨?_, ?_, ?_⟩
      · constructor
        · intro hok
          rw [hres] at hok
          exact Except.noConfusion hok
        · intro hcsv
          exact absurd hcsv hp1
      · constructor
        · intro hok
          rw [hres] at hok
          exact Except.noConfusion hok
        · intro hq
          exact absurd hq hp2
      · constructor
        · intro _ hdis
          rcases hdis with h | h | h | h | h
          · exact hp1 (Or.inl h)
          · exact hp1 (Or.inr h)
          · exact hp2 (Or.inl h)
          · exact hp2 (Or.inr (Or.inl h))
          · exact hp2 (Or.inr (Or.inr h))
        · intro _
          exact ⟨_, hres⟩

end SparkDF
